import Mathlib

/-!
Verification development for the audit-agent frontend.

Shallow embedding of the client-side code:
- `src/frontend/src/types/api.ts`   (entity records and status enums)
- `src/frontend/src/lib/api/client.ts`  (ApiClient: token refresh, fetch)
- `src/frontend/src/lib/api/controls.ts` (scorecard / risk API with demo fallback)
- `src/frontend/src/lib/api/auth.ts` (getDashboardStats)
- `src/frontend/src/hooks/use-websocket.ts` (useWebSocket hook)
- `src/frontend/src/middleware.ts`  (Next.js middleware)

JavaScript numbers appearing here are small integers, embedded as `Nat`/`Int`
with exact arithmetic. Fallible operations are embedded as `Except`-valued
functions; the outcome of an HTTP exchange is passed in as data.
-/

namespace AuditAgent

/-! ## Data model: `types/api.ts` -/

/-- `AuditProject.status`: the closed union
`"draft" | "planning" | "fieldwork" | "reporting" | "completed"`. -/
inductive ProjectStatus
  | draft | planning | fieldwork | reporting | completed
deriving DecidableEq, Repr

/-- `DialogueMessage.message_type`: the closed union
`"question" | "answer" | "clarification" | "escalation"`. -/
inductive MessageType
  | question | answer | clarification | escalation
deriving DecidableEq, Repr

/-- `RiskItem.risk_level`: the closed union
`"critical" | "high" | "medium" | "low"`. -/
inductive RiskLevel
  | critical | high | medium | low
deriving DecidableEq, Repr

/-- `RiskItem.status`: the closed union
`"open" | "mitigated" | "accepted" | "closed"`. -/
inductive RiskStatus
  | «open» | mitigated | accepted | closed
deriving DecidableEq, Repr

/-- `ControlScore.status`: the closed union
`"effective" | "partially_effective" | "ineffective" | "not_tested"`. -/
inductive ControlStatus
  | effective | partially_effective | ineffective | not_tested
deriving DecidableEq, Repr

/-- `ControlScore.remediation_status`: the closed union
`"none" | "in_progress" | "completed" | "overdue"`. -/
inductive RemediationStatus
  | «none» | in_progress | completed | overdue
deriving DecidableEq, Repr

/-- `interface AuditProject` from `types/api.ts`. -/
structure AuditProject where
  id : String
  name : String
  description : String
  status : ProjectStatus
  fiscal_year : Int
  department : String
  created_at : String
  updated_at : String
deriving DecidableEq, Repr

/-- `interface DialogueMessage` from `types/api.ts`.
`quality_score : number | null` is embedded as `Option Int`. -/
structure DialogueMessage where
  id : String
  from_agent : String
  to_agent : Option String
  message_type : MessageType
  content : String
  thread_id : String
  quality_score : Option Int
  timestamp : String
deriving DecidableEq, Repr

/-- `interface RiskItem` from `types/api.ts`. -/
structure RiskItem where
  id : String
  title : String
  description : String
  risk_level : RiskLevel
  risk_score : Nat
  category : String
  source : String
  detected_at : String
  status : RiskStatus
  project_id : Option String
deriving DecidableEq, Repr

/-- `interface ControlScore` from `types/api.ts`. -/
structure ControlScore where
  id : String
  control_id : String
  control_name : String
  category : String
  description : String
  score : Nat
  status : ControlStatus
  last_tested : Option String
  tester_agent : Option String
  findings_count : Nat
  remediation_status : RemediationStatus
  project_id : Option String
deriving DecidableEq, Repr

/-- One value of the `Record<string, { score: number; count: number }>`
in `ControlScorecard.by_category`. -/
structure CategoryStat where
  score : Nat
  count : Nat
deriving DecidableEq, Repr

/-- `interface ControlScorecard` from `types/api.ts`.
The `Record<string, ...>` is embedded as an association list in
insertion order. -/
structure ControlScorecard where
  overall_score : Nat
  total_controls : Nat
  effective : Nat
  partially_effective : Nat
  ineffective : Nat
  not_tested : Nat
  by_category : List (String × CategoryStat)
  controls : List ControlScore
deriving DecidableEq, Repr

/-- `interface RiskTrendPoint` from `types/api.ts`. -/
structure RiskTrendPoint where
  date : String
  score : Nat
  count : Nat
deriving DecidableEq, Repr

/-- `interface RiskDashboardData` from `types/api.ts`. -/
structure RiskDashboardData where
  total_risks : Nat
  critical : Nat
  high : Nat
  medium : Nat
  low : Nat
  open_risks : Nat
  mitigated_risks : Nat
  risk_trend : List RiskTrendPoint
  by_category : List (String × Nat)
  recent_risks : List RiskItem
deriving DecidableEq, Repr

/-- `interface ApprovalQueueItem` from `types/api.ts` (fields used by
`getDashboardStats`; the opaque `context` record is dropped). -/
structure ApprovalQueueItem where
  id : String
  decision_id : String
  approval_type : String
  priority : String
  status : String
  requested_by_agent : String
  created_at : Option String
deriving DecidableEq, Repr

/-- `interface AgentDecision` from `types/api.ts`.
`confidence : number` is embedded as `Int` (its exact value is unused
by the claims). -/
structure AgentDecision where
  id : String
  agent_type : String
  decision_type : String
  reasoning : Option String
  confidence : Int
  model_used : String
  human_approved : Option Bool
  project_id : Option String
  created_at : Option String
deriving DecidableEq, Repr

/-! ## `middleware.ts` -/

/-- `const publicPaths = ["/login", "/register"]`. -/
def publicPaths : List String := ["/login", "/register"]

/-- Possible results a Next.js middleware can produce for a request:
pass it through, redirect it, or rewrite it. -/
inductive MwResult
  | next
  | redirect (target : String)
  | rewrite (target : String)
deriving DecidableEq, Repr

/-- `middleware(request)` from `middleware.ts`, as a function of
`request.nextUrl.pathname`. -/
def middleware (pathname : String) : MwResult :=
  if publicPaths.any (fun p => pathname.startsWith p) then
    MwResult.next
  else if pathname.startsWith "/_next" || pathname.startsWith "/api"
      || pathname.contains (Char.ofNat 46) then
    MwResult.next
  else
    MwResult.next

/-! ## `ApiClient` (`lib/api/client.ts`)

The client is a stateful object holding `accessToken`, `refreshToken` and
`refreshPromise`. HTTP exchanges are embedded by passing their outcome in as
data. A stored access token is embedded as its raw string together with the
result of parsing `JSON.parse(atob(raw.split(".")[1])).exp`: `expField = none`
when that parse throws or the field is absent or not a number. -/

/-- A JWT string as the client sees it: its identity plus its parsed
`exp` claim (seconds since epoch), if any. -/
structure Jwt where
  raw : String
  expField : Option Int
deriving DecidableEq, Repr

/-- `interface TokenResponse` from `types/api.ts`. -/
structure TokenResponse where
  access_token : Jwt
  refresh_token : String
  token_type : String
deriving DecidableEq, Repr

/-- The token fields of `ApiClient`. -/
structure ClientState where
  accessToken : Option Jwt
  refreshToken : Option String
deriving DecidableEq, Repr

/-- `ApiClient.setTokens`. -/
def setTokens (tokens : TokenResponse) (_s : ClientState) : ClientState :=
  { accessToken := some tokens.access_token
    refreshToken := some tokens.refresh_token }

/-- `ApiClient.clearTokens`. -/
def clearTokens (_s : ClientState) : ClientState :=
  { accessToken := none, refreshToken := none }

/-- Errors thrown by `ApiClient`. -/
inductive ClientError
  | noRefreshToken
  | tokenRefreshFailed
  | apiError (status : Nat)
  | authenticationFailed
deriving DecidableEq, Repr

/-- Outcome of the `POST /api/v1/auth/refresh` exchange: either an OK
response carrying a `TokenResponse` body, or a non-OK response. -/
inductive RefreshOutcome
  | ok (tokens : TokenResponse)
  | notOk
deriving DecidableEq, Repr

/-- `ApiClient.refreshAccessToken`: throws when no refresh token is stored;
on a non-OK response clears both tokens and throws; on an OK response stores
the returned tokens. Returns the new client state and the call result. -/
def refreshAccessToken (s : ClientState) (outcome : RefreshOutcome) :
    ClientState × Except ClientError Unit :=
  match s.refreshToken with
  | none => (s, Except.error ClientError.noRefreshToken)
  | some _ =>
    match outcome with
    | RefreshOutcome.notOk =>
        (clearTokens s, Except.error ClientError.tokenRefreshFailed)
    | RefreshOutcome.ok tokens =>
        (setTokens tokens s, Except.ok ())

/-- The near-expiry test of `ensureValidToken`:
`Date.now() > payload.exp * 1000 - 60000` (times in milliseconds). -/
def nearExpiry (exp now : Int) : Bool := exp * 1000 - 60000 < now

/-- `ApiClient.ensureValidToken` as seen by a single call: with no stored
access token, or an unparsable one, it does nothing; with a parsable token
near expiry it runs a refresh (any error the refresh throws is swallowed by
the surrounding `catch`). Returns the new state and whether a refresh was
performed. -/
def ensureValidToken (s : ClientState) (now : Int) (outcome : RefreshOutcome) :
    ClientState × Bool :=
  match s.accessToken with
  | none => (s, false)
  | some jwt =>
    match jwt.expField with
    | none => (s, false)
    | some exp =>
      if nearExpiry exp now then
        ((refreshAccessToken s outcome).1, true)
      else
        (s, false)

/-- The `refreshPromise` slot of `ApiClient`, with bookkeeping: `inflight` is
the promise currently stored in `this.refreshPromise` (by id), `started`
counts the token-refresh requests started so far, `nextId` names the next
promise. -/
structure RefreshGate where
  inflight : Option Nat
  started : Nat
  nextId : Nat
deriving DecidableEq, Repr

/-- The synchronous critical section of `ensureValidToken` executed by a call
that finds the token near expiry:
`if (!this.refreshPromise) { this.refreshPromise = this.refreshAccessToken().finally(...) }`
followed by `await this.refreshPromise`. The JS event loop runs this block
atomically (there is no `await` between the test and the assignment). Returns
the new gate state and the id of the promise the call awaits. -/
def enterRefreshGate (s : RefreshGate) : RefreshGate × Nat :=
  match s.inflight with
  | some p => (s, p)
  | none =>
      ({ inflight := some s.nextId
         started := s.started + 1
         nextId := s.nextId + 1 }, s.nextId)

/-- The `.finally(() => { this.refreshPromise = null })` handler that runs
when the in-flight refresh settles. -/
def settleRefreshGate (s : RefreshGate) : RefreshGate :=
  { s with inflight := none }

/-- An HTTP response: its status code and its (opaque) JSON body. -/
structure Response where
  status : Nat
  body : String
deriving DecidableEq, Repr

/-- `response.ok`: status in the range 200–299. -/
def Response.okStatus (r : Response) : Bool := 200 ≤ r.status && r.status ≤ 299

/-- The environment of one `ApiClient.fetch` call: the response to the
initial request, the outcome of the refresh run by `ensureValidToken` (when
one happens), the outcome of the refresh run by the 401 handler (when one
happens), and the response to the retried request (when one happens). -/
structure FetchEnv where
  resp1 : Response
  refreshAtEnsure : RefreshOutcome
  refreshAt401 : RefreshOutcome
  resp2 : Response
deriving DecidableEq, Repr

/-- Observable actions of one `ApiClient.fetch` call. -/
structure FetchTrace where
  ensureRefreshes : Nat
  refreshes401 : Nat
  retries : Nat
  retryAuth : Option String
  redirectedToLogin : Bool
deriving DecidableEq, Repr

/-- The `Authorization` header value built from a stored token. -/
def bearer (j : Jwt) : String := "Bearer " ++ j.raw

/-- `ApiClient.fetch`: ensure the token is valid, send the request; on a 401
response, refresh once and retry once with the refreshed `Authorization`
header, and on any failure in that block clear both tokens, redirect to
`/login` and throw `Authentication failed`; on a non-OK non-401 response
throw an API error; otherwise return the response body. -/
def fetchModel (s : ClientState) (now : Int) (env : FetchEnv) :
    ClientState × FetchTrace × Except ClientError String :=
  let ensured := ensureValidToken s now env.refreshAtEnsure
  let s1 := ensured.1
  let eCount := if ensured.2 then 1 else 0
  if env.resp1.status = 401 then
    match refreshAccessToken s1 env.refreshAt401 with
    | (s2, Except.ok _) =>
        let auth := s2.accessToken.map bearer
        if env.resp2.okStatus then
          (s2,
           { ensureRefreshes := eCount, refreshes401 := 1, retries := 1
             retryAuth := auth, redirectedToLogin := false },
           Except.ok env.resp2.body)
        else
          (clearTokens s2,
           { ensureRefreshes := eCount, refreshes401 := 1, retries := 1
             retryAuth := auth, redirectedToLogin := true },
           Except.error ClientError.authenticationFailed)
    | (s2, Except.error _) =>
        (clearTokens s2,
         { ensureRefreshes := eCount, refreshes401 := 1, retries := 0
           retryAuth := none, redirectedToLogin := true },
         Except.error ClientError.authenticationFailed)
  else if env.resp1.okStatus then
    (s1,
     { ensureRefreshes := eCount, refreshes401 := 0, retries := 0
       retryAuth := none, redirectedToLogin := false },
     Except.ok env.resp1.body)
  else
    (s1,
     { ensureRefreshes := eCount, refreshes401 := 0, retries := 0
       retryAuth := none, redirectedToLogin := false },
     Except.error (ClientError.apiError env.resp1.status))

/-- Whether a refresh call succeeded. -/
def refreshSucceeded (r : ClientState × Except ClientError Unit) : Bool :=
  match r.2 with
  | Except.ok _ => true
  | Except.error _ => false

/-! ## `useWebSocket` (`hooks/use-websocket.ts`)

One hook instance is embedded as a transition system. Browser semantics:
`new WebSocket(url)` starts in CONNECTING; the open and close events are
dispatched asynchronously as tasks (in particular, `ws.close()` returns
immediately and the close event, which runs the `onclose` handler installed
by `connect`, is delivered later). Timers carry an absolute fire time; a
timer may fire once its fire time has been reached. The clock is in
milliseconds. -/

/-- `WebSocket.readyState`. -/
inductive ReadyState
  | connecting | «open» | closing | closed
deriving DecidableEq, Repr

/-- A WebSocket object created by `connect` (with the hook's handlers
installed), identified by creation order. -/
structure Socket where
  id : Nat
  state : ReadyState
deriving DecidableEq, Repr

/-- A pending `setTimeout` timer. -/
structure Timer where
  id : Nat
  fireAt : Nat
deriving DecidableEq, Repr

/-- State of one `useWebSocket` hook instance plus its browser environment:
every socket the hook ever created (with its current ready state), the
`wsRef` and `reconnectTimeoutRef` refs, the pending timers, the
`isConnected` React state, and a clock. `autoConnect` is the hook option
captured by the `onclose` closure. -/
structure HookState where
  sockets : List Socket
  wsRef : Option Nat
  reconnectTimeoutRef : Option Nat
  timers : List Timer
  isConnected : Bool
  now : Nat
  nextSocketId : Nat
  nextTimerId : Nat
  autoConnect : Bool
deriving DecidableEq, Repr

/-- Freshly mounted hook state. -/
def initHook (autoConnect : Bool) : HookState :=
  { sockets := [], wsRef := none, reconnectTimeoutRef := none, timers := []
    isConnected := false, now := 0, nextSocketId := 0, nextTimerId := 0
    autoConnect := autoConnect }

/-- Ready state of socket `i`, when the hook created such a socket. -/
def socketState (s : HookState) (i : Nat) : Option ReadyState :=
  (s.sockets.find? (fun sock => sock.id == i)).map Socket.state

/-- Replace the ready state of socket `i`. -/
def setSocketState (s : HookState) (i : Nat) (st : ReadyState) : HookState :=
  { s with sockets := s.sockets.map (fun sock =>
      if sock.id == i then { sock with state := st } else sock) }

/-- `wsRef.current?.readyState`. -/
def currentReadyState (s : HookState) : Option ReadyState :=
  match s.wsRef with
  | none => none
  | some i => socketState s i

/-- The `connect` callback:
`if (wsRef.current?.readyState === WebSocket.OPEN) return;` and otherwise
`new WebSocket(url)` (CONNECTING), handler installation, and
`wsRef.current = ws`. -/
def connect (s : HookState) : HookState :=
  if currentReadyState s = some ReadyState.«open» then s
  else
    { s with
      sockets := s.sockets ++ [Socket.mk s.nextSocketId ReadyState.connecting]
      wsRef := some s.nextSocketId
      nextSocketId := s.nextSocketId + 1 }

/-- Environment event: socket `i` completes its handshake. The browser moves
it CONNECTING → OPEN and dispatches `onopen`, which runs
`setIsConnected(true)`. -/
def sockOpen (s : HookState) (i : Nat) : HookState :=
  if socketState s i = some ReadyState.connecting then
    { setSocketState s i ReadyState.«open» with isConnected := true }
  else s

/-- Environment event: the close event of socket `i` is delivered (remote
close, failed handshake, or completion of a local `close()`). The browser
moves the socket to CLOSED and dispatches `onclose`, which runs
`setIsConnected(false)` and
`reconnectTimeoutRef.current = setTimeout(() => { if (autoConnect) connect() }, 5000)`. -/
def sockClose (s : HookState) (i : Nat) : HookState :=
  match socketState s i with
  | none => s
  | some st =>
    if st = ReadyState.closed then s
    else
      let s1 := setSocketState s i ReadyState.closed
      { s1 with
        isConnected := false
        timers := s1.timers ++ [Timer.mk s1.nextTimerId (s1.now + 5000)]
        reconnectTimeoutRef := some s1.nextTimerId
        nextTimerId := s1.nextTimerId + 1 }

/-- Environment event: `onerror` on socket `i`; the handler calls
`ws.close()`, which starts closing an OPEN or CONNECTING socket (its close
event is delivered later as a `sockClose`). -/
def sockError (s : HookState) (i : Nat) : HookState :=
  match socketState s i with
  | some ReadyState.connecting => setSocketState s i ReadyState.closing
  | some ReadyState.«open» => setSocketState s i ReadyState.closing
  | _ => s

/-- The `disconnect` callback:
`if (reconnectTimeoutRef.current) clearTimeout(reconnectTimeoutRef.current);`
then `wsRef.current?.close()` (starts closing the socket; its close event is
delivered later), `wsRef.current = null`, `setIsConnected(false)`. -/
def disconnect (s : HookState) : HookState :=
  let s1 :=
    match s.reconnectTimeoutRef with
    | none => s
    | some tid => { s with timers := s.timers.filter (fun t => !(t.id == tid)) }
  let s2 :=
    match s1.wsRef with
    | none => s1
    | some i =>
      match socketState s1 i with
      | some ReadyState.connecting => setSocketState s1 i ReadyState.closing
      | some ReadyState.«open» => setSocketState s1 i ReadyState.closing
      | _ => s1
  { s2 with wsRef := none, isConnected := false }

/-- Environment event: pending timer `tid` fires (its fire time reached).
The browser removes it from the queue and runs the scheduled callback
`() => { if (autoConnect) connect() }`. -/
def fireTimer (s : HookState) (tid : Nat) : HookState :=
  match s.timers.find? (fun t => t.id == tid) with
  | none => s
  | some t =>
    if t.fireAt ≤ s.now then
      let s1 := { s with timers := s.timers.filter (fun tm => !(tm.id == tid)) }
      if s1.autoConnect then connect s1 else s1
    else s

/-- Environment event: the clock advances by `d` milliseconds. -/
def advance (s : HookState) (d : Nat) : HookState := { s with now := s.now + d }

/-- Events of one hook instance: the two exposed callbacks plus the browser
environment events. -/
inductive HookEv
  | connect
  | disconnect
  | sockOpen (i : Nat)
  | sockClose (i : Nat)
  | sockError (i : Nat)
  | fireTimer (tid : Nat)
  | advance (d : Nat)
deriving DecidableEq, Repr

/-- One transition. -/
def hookStep (s : HookState) : HookEv → HookState
  | HookEv.connect => connect s
  | HookEv.disconnect => disconnect s
  | HookEv.sockOpen i => sockOpen s i
  | HookEv.sockClose i => sockClose s i
  | HookEv.sockError i => sockError s i
  | HookEv.fireTimer tid => fireTimer s tid
  | HookEv.advance d => advance s d

/-- Run a sequence of events. -/
def hookRun (s : HookState) (evs : List HookEv) : HookState :=
  evs.foldl hookStep s

/-- Number of sockets of this hook instance currently in the OPEN state. -/
def openSockets (s : HookState) : Nat :=
  (s.sockets.filter (fun sock => sock.state == ReadyState.«open»)).length

/-! ## `lib/api/controls.ts`: demo data and API wrappers

`apiClient.get` either resolves with the backend response or rejects; the
wrappers catch every rejection and fall back to demo data. Each wrapper is
embedded as a total function of the outcome of its `apiClient.get` call. -/

/-- `Math.round(sum / count)` for nonnegative integers: rounding half up is
`(2 * sum + count) / (2 * count)` in floor division. The quotients arising
below are exact in JS doubles. -/
def mathRound (sum count : Nat) : Nat := (2 * sum + count) / (2 * count)

/-- The eight hard-coded controls of `generateDemoScorecard`. -/
def demoControls : List ControlScore :=
  [ { id := "ctrl-001", control_id := "AC-001"
      control_name := "Access Control Review", category := "Access Control"
      description := "Periodic review of user access rights"
      score := 92, status := ControlStatus.effective
      last_tested := some "2026-02-10T09:00:00Z"
      tester_agent := some "controls_tester", findings_count := 0
      remediation_status := RemediationStatus.«none», project_id := none },
    { id := "ctrl-002", control_id := "AC-002"
      control_name := "Segregation of Duties", category := "Access Control"
      description := "Ensure proper SoD across financial systems"
      score := 78, status := ControlStatus.partially_effective
      last_tested := some "2026-02-08T14:00:00Z"
      tester_agent := some "controls_tester", findings_count := 2
      remediation_status := RemediationStatus.in_progress, project_id := none },
    { id := "ctrl-003", control_id := "FP-001"
      control_name := "Journal Entry Approval", category := "Financial Process"
      description := "Dual approval for journal entries over threshold"
      score := 95, status := ControlStatus.effective
      last_tested := some "2026-02-12T10:00:00Z"
      tester_agent := some "controls_tester", findings_count := 0
      remediation_status := RemediationStatus.«none», project_id := none },
    { id := "ctrl-004", control_id := "FP-002"
      control_name := "Bank Reconciliation", category := "Financial Process"
      description := "Monthly bank account reconciliation"
      score := 88, status := ControlStatus.effective
      last_tested := some "2026-02-01T08:00:00Z"
      tester_agent := some "controls_tester", findings_count := 1
      remediation_status := RemediationStatus.completed, project_id := none },
    { id := "ctrl-005", control_id := "IT-001"
      control_name := "Change Management", category := "IT General Controls"
      description := "IT change request and approval process"
      score := 65, status := ControlStatus.partially_effective
      last_tested := some "2026-02-05T11:00:00Z"
      tester_agent := some "controls_tester", findings_count := 3
      remediation_status := RemediationStatus.in_progress, project_id := none },
    { id := "ctrl-006", control_id := "IT-002"
      control_name := "Backup & Recovery", category := "IT General Controls"
      description := "Regular backup and disaster recovery testing"
      score := 45, status := ControlStatus.ineffective
      last_tested := some "2026-01-20T15:00:00Z"
      tester_agent := some "controls_tester", findings_count := 4
      remediation_status := RemediationStatus.overdue, project_id := none },
    { id := "ctrl-007", control_id := "CM-001"
      control_name := "Vendor Due Diligence", category := "Compliance"
      description := "Third-party vendor risk assessment"
      score := 82, status := ControlStatus.effective
      last_tested := some "2026-02-11T09:30:00Z"
      tester_agent := some "controls_tester", findings_count := 1
      remediation_status := RemediationStatus.«none», project_id := none },
    { id := "ctrl-008", control_id := "CM-002"
      control_name := "Regulatory Reporting", category := "Compliance"
      description := "Timely and accurate regulatory submissions"
      score := 0, status := ControlStatus.not_tested
      last_tested := none
      tester_agent := none, findings_count := 0
      remediation_status := RemediationStatus.«none», project_id := none } ]

/-- The `byCategory` accumulation loop of `generateDemoScorecard`: a missing
key is created as `{ score: 0, count: 0 }`, then `count++` and
`score += c.score`. -/
def accumCategory (acc : List (String × CategoryStat)) (c : ControlScore) :
    List (String × CategoryStat) :=
  if acc.any (fun e => e.1 == c.category) then
    acc.map (fun e =>
      if e.1 == c.category then
        (e.1, CategoryStat.mk (e.2.score + c.score) (e.2.count + 1))
      else e)
  else acc ++ [(c.category, CategoryStat.mk c.score 1)]

/-- `generateDemoScorecard()` from `controls.ts`. -/
def generateDemoScorecard : ControlScorecard :=
  let controls := demoControls
  let effectiveCnt :=
    (controls.filter (fun c => c.status == ControlStatus.effective)).length
  let partialCnt :=
    (controls.filter
      (fun c => c.status == ControlStatus.partially_effective)).length
  let ineffectiveCnt :=
    (controls.filter (fun c => c.status == ControlStatus.ineffective)).length
  let notTestedCnt :=
    (controls.filter (fun c => c.status == ControlStatus.not_tested)).length
  let testedControls :=
    controls.filter (fun c => !(c.status == ControlStatus.not_tested))
  let overall :=
    if testedControls.length > 0 then
      mathRound (testedControls.foldl (fun sum c => sum + c.score) 0)
        testedControls.length
    else 0
  let byCategoryRaw := controls.foldl accumCategory []
  let byCategory := byCategoryRaw.map (fun e =>
    (e.1, CategoryStat.mk (mathRound e.2.score e.2.count) e.2.count))
  { overall_score := overall
    total_controls := controls.length
    effective := effectiveCnt
    partially_effective := partialCnt
    ineffective := ineffectiveCnt
    not_tested := notTestedCnt
    by_category := byCategory
    controls := controls }

/-- The seven hard-coded risks of `generateDemoRiskData`. -/
def demoRisks : List RiskItem :=
  [ { id := "risk-001", title := "Unauthorized Access Pattern Detected"
      description := "Anomalous login patterns from SAP system detected by ML model"
      risk_level := RiskLevel.critical, risk_score := 92
      category := "Access Control", source := "anomaly_detective"
      detected_at := "2026-02-14T16:30:00Z"
      status := RiskStatus.«open», project_id := none },
    { id := "risk-002", title := "Journal Entry Threshold Bypass"
      description := "Multiple journal entries just below approval threshold"
      risk_level := RiskLevel.high, risk_score := 78
      category := "Financial Process", source := "anomaly_detective"
      detected_at := "2026-02-13T10:15:00Z"
      status := RiskStatus.«open», project_id := none },
    { id := "risk-003", title := "IT Change Without Approval"
      description := "Production changes deployed without proper change management approval"
      risk_level := RiskLevel.high, risk_score := 75
      category := "IT General Controls", source := "controls_tester"
      detected_at := "2026-02-12T14:45:00Z"
      status := RiskStatus.mitigated, project_id := none },
    { id := "risk-004", title := "Backup Failure - 3 Consecutive"
      description := "Database backup has failed for 3 consecutive days"
      risk_level := RiskLevel.high, risk_score := 70
      category := "IT General Controls", source := "controls_tester"
      detected_at := "2026-02-10T08:00:00Z"
      status := RiskStatus.«open», project_id := none },
    { id := "risk-005", title := "Vendor Contract Expiration"
      description := "Critical vendor contract expiring without renewal process initiated"
      risk_level := RiskLevel.medium, risk_score := 55
      category := "Compliance", source := "knowledge_agent"
      detected_at := "2026-02-09T11:00:00Z"
      status := RiskStatus.accepted, project_id := none },
    { id := "risk-006", title := "Duplicate Payment Detection"
      description := "Potential duplicate payment identified in AP system"
      risk_level := RiskLevel.medium, risk_score := 50
      category := "Financial Process", source := "anomaly_detective"
      detected_at := "2026-02-08T09:30:00Z"
      status := RiskStatus.closed, project_id := none },
    { id := "risk-007", title := "Weak Password Policy Compliance"
      description := "15% of users not compliant with updated password policy"
      risk_level := RiskLevel.low, risk_score := 30
      category := "Access Control", source := "controls_tester"
      detected_at := "2026-02-07T13:00:00Z"
      status := RiskStatus.mitigated, project_id := none } ]

/-- `generateDemoRiskData()` from `controls.ts`. -/
def generateDemoRiskData : RiskDashboardData :=
  let risks := demoRisks
  { total_risks := risks.length
    critical :=
      (risks.filter (fun r => r.risk_level == RiskLevel.critical)).length
    high := (risks.filter (fun r => r.risk_level == RiskLevel.high)).length
    medium := (risks.filter (fun r => r.risk_level == RiskLevel.medium)).length
    low := (risks.filter (fun r => r.risk_level == RiskLevel.low)).length
    open_risks :=
      (risks.filter (fun r => r.status == RiskStatus.«open»)).length
    mitigated_risks :=
      (risks.filter (fun r => r.status == RiskStatus.mitigated)).length
    risk_trend :=
      [ RiskTrendPoint.mk "2026-02-09" 68 3,
        RiskTrendPoint.mk "2026-02-10" 72 4,
        RiskTrendPoint.mk "2026-02-11" 70 4,
        RiskTrendPoint.mk "2026-02-12" 74 5,
        RiskTrendPoint.mk "2026-02-13" 71 6,
        RiskTrendPoint.mk "2026-02-14" 75 7,
        RiskTrendPoint.mk "2026-02-15" 73 7 ]
    by_category :=
      [ ("Access Control", 2), ("Financial Process", 2),
        ("IT General Controls", 2), ("Compliance", 1) ]
    recent_risks := risks }

/-- `getControlScorecard`: the backend response when the call resolves, the
demo scorecard when it rejects. -/
def getControlScorecard (result : Except ClientError ControlScorecard) :
    ControlScorecard :=
  match result with
  | Except.ok v => v
  | Except.error _ => generateDemoScorecard

/-- `getControls`: the backend response when the call resolves,
`generateDemoScorecard().controls` when it rejects. -/
def getControls (result : Except ClientError (List ControlScore)) :
    List ControlScore :=
  match result with
  | Except.ok v => v
  | Except.error _ => generateDemoScorecard.controls

/-- `getRiskDashboard`: the backend response when the call resolves, the
demo risk data when it rejects. -/
def getRiskDashboard (result : Except ClientError RiskDashboardData) :
    RiskDashboardData :=
  match result with
  | Except.ok v => v
  | Except.error _ => generateDemoRiskData

/-- `getRisks`: the backend response when the call resolves,
`generateDemoRiskData().recent_risks` when it rejects. -/
def getRisks (result : Except ClientError (List RiskItem)) : List RiskItem :=
  match result with
  | Except.ok v => v
  | Except.error _ => generateDemoRiskData.recent_risks

/-! ## `lib/api/auth.ts`: `getDashboardStats` -/

/-- Shape of the `GET /api/v1/projects/` response. -/
structure ProjectListResponse where
  projects : List AuditProject
  total : Nat
deriving DecidableEq, Repr

/-- Shape of the `GET /api/v1/agents/decisions` response. -/
structure DecisionListResponse where
  decisions : List AgentDecision
  total : Nat
deriving DecidableEq, Repr

/-- `interface DashboardStats` from `lib/api/auth.ts`. -/
structure DashboardStats where
  activeProjects : Nat
  pendingApprovals : Nat
  agentDecisions : Nat
  riskAlerts : Nat
deriving DecidableEq, Repr

/-- `getDashboardStats`: the three backend calls run under
`Promise.allSettled`, so each argument is the settled outcome of one call;
every rejected component contributes 0, and `riskAlerts` is hard-coded 0. -/
def getDashboardStats (projects : Except ClientError ProjectListResponse)
    (approvals : Except ClientError (List ApprovalQueueItem))
    (decisions : Except ClientError DecisionListResponse) : DashboardStats :=
  { activeProjects :=
      match projects with
      | Except.ok v =>
          (v.projects.filter (fun p =>
            !(p.status == ProjectStatus.completed) &&
            !(p.status == ProjectStatus.draft))).length
      | Except.error _ => 0
    pendingApprovals :=
      match approvals with
      | Except.ok v => v.length
      | Except.error _ => 0
    agentDecisions :=
      match decisions with
      | Except.ok v => v.total
      | Except.error _ => 0
    riskAlerts := 0 }

end AuditAgent

namespace AuditAgent

/-- C8: For every incoming request, the Next.js middleware returns
`NextResponse.next()`: no path is ever redirected, rewritten, or blocked
server-side, regardless of any authentication token. -/
theorem C8_middleware_always_next (pathname : String) :
    middleware pathname = MwResult.next := by
  unfold middleware
  split
  · rfl
  · split <;> rfl

/-- C1: Overlapping calls to `ensureValidToken` that both find the token near
expiry are serialized behind one in-flight `refreshPromise`: from an empty
promise slot, the first call starts exactly one refresh; a second call that
arrives while it is in flight changes nothing and awaits the very same
promise; and settling the refresh resets the slot to `null`. -/
theorem C1_concurrent_refresh_serialized (s : RefreshGate)
    (h : s.inflight = none) :
    (enterRefreshGate s).1.started = s.started + 1 ∧
    enterRefreshGate (enterRefreshGate s).1 =
      ((enterRefreshGate s).1, (enterRefreshGate s).2) ∧
    (settleRefreshGate (enterRefreshGate (enterRefreshGate s).1).1).inflight
      = none := by
  simp [enterRefreshGate, settleRefreshGate, h]

/-- Witness for C1 at the initial gate state. -/
theorem C1_concurrent_refresh_serialized_witness :
    (RefreshGate.mk none 0 0).inflight = none ∧
    ((enterRefreshGate (RefreshGate.mk none 0 0)).1.started
        = (RefreshGate.mk none 0 0).started + 1 ∧
      enterRefreshGate (enterRefreshGate (RefreshGate.mk none 0 0)).1 =
        ((enterRefreshGate (RefreshGate.mk none 0 0)).1,
         (enterRefreshGate (RefreshGate.mk none 0 0)).2) ∧
      (settleRefreshGate
        (enterRefreshGate
          (enterRefreshGate (RefreshGate.mk none 0 0)).1).1).inflight
        = none) :=
  ⟨rfl, C1_concurrent_refresh_serialized (RefreshGate.mk none 0 0) rfl⟩

/-- C6: `ensureValidToken` refreshes exactly when the stored token parses to
an `exp` with `exp * 1000 - 60000 < now`; an unparsable token leaves the
state unchanged and no refresh happens; and on a non-OK refresh response
`refreshAccessToken` clears both stored tokens and throws. -/
theorem C6_token_refresh_condition (s : ClientState) (now : Int)
    (outcome : RefreshOutcome) :
    ((ensureValidToken s now outcome).2 = true ↔
      ∃ jwt e, s.accessToken = some jwt ∧ jwt.expField = some e ∧
        e * 1000 - 60000 < now) ∧
    (∀ jwt, s.accessToken = some jwt → jwt.expField = none →
      ensureValidToken s now outcome = (s, false)) ∧
    (s.refreshToken.isSome = true →
      refreshAccessToken s RefreshOutcome.notOk =
        (ClientState.mk none none,
         Except.error ClientError.tokenRefreshFailed)) := by
  refine ⟨?_, ?_, ?_⟩
  · cases haccess : s.accessToken with
    | none => simp [ensureValidToken, haccess]
    | some jwt =>
      cases hexp : jwt.expField with
      | none => simp [ensureValidToken, haccess, hexp]
      | some e =>
        by_cases hlt : e * 1000 - 60000 < now
        · simp [ensureValidToken, haccess, hexp, nearExpiry, hlt]
        · simp [ensureValidToken, haccess, hexp, nearExpiry, hlt]
  · intro jwt h1 h2
    simp [ensureValidToken, h1, h2]
  · intro hsome
    cases hrt : s.refreshToken with
    | none => rw [hrt] at hsome; simp at hsome
    | some rt => simp [refreshAccessToken, hrt, clearTokens]

/-- Witness for C6 at a token 40 seconds from expiry. -/
theorem C6_token_refresh_condition_witness :
    ((ensureValidToken
        (ClientState.mk (some (Jwt.mk "tok" (some 100))) (some "ref"))
        (100 * 1000 - 40000) RefreshOutcome.notOk).2 = true ↔
      ∃ jwt e,
        (ClientState.mk (some (Jwt.mk "tok" (some 100)))
          (some "ref")).accessToken = some jwt ∧
        jwt.expField = some e ∧ e * 1000 - 60000 < 100 * 1000 - 40000) ∧
    (∀ jwt,
      (ClientState.mk (some (Jwt.mk "tok" (some 100)))
        (some "ref")).accessToken = some jwt →
      jwt.expField = none →
      ensureValidToken
        (ClientState.mk (some (Jwt.mk "tok" (some 100))) (some "ref"))
        (100 * 1000 - 40000) RefreshOutcome.notOk =
        (ClientState.mk (some (Jwt.mk "tok" (some 100))) (some "ref"),
         false)) ∧
    ((ClientState.mk (some (Jwt.mk "tok" (some 100)))
        (some "ref")).refreshToken.isSome = true →
      refreshAccessToken
        (ClientState.mk (some (Jwt.mk "tok" (some 100))) (some "ref"))
        RefreshOutcome.notOk =
        (ClientState.mk none none,
         Except.error ClientError.tokenRefreshFailed)) :=
  C6_token_refresh_condition
    (ClientState.mk (some (Jwt.mk "tok" (some 100))) (some "ref"))
    (100 * 1000 - 40000) RefreshOutcome.notOk

/-- C5: A fetch whose initial response is 401 runs exactly one token refresh;
it retries exactly once when the refresh succeeds (never more), carrying the
refreshed token in the `Authorization` header; if the refresh or the retry
fails, both tokens are cleared, the browser is redirected to `/login`, and
the call throws `Authentication failed`; a body is returned to the caller
only from an OK retry response, so a 401 body is never returned. -/
theorem C5_fetch_401_refresh_retry (s : ClientState) (now : Int)
    (env : FetchEnv) (h401 : env.resp1.status = 401) :
    (fetchModel s now env).2.1.refreshes401 = 1 ∧
    (fetchModel s now env).2.1.retries =
      (if refreshSucceeded
          (refreshAccessToken (ensureValidToken s now env.refreshAtEnsure).1
            env.refreshAt401) then 1 else 0) ∧
    (∀ t, env.refreshAt401 = RefreshOutcome.ok t →
      refreshSucceeded
        (refreshAccessToken (ensureValidToken s now env.refreshAtEnsure).1
          env.refreshAt401) = true →
      (fetchModel s now env).2.1.retryAuth = some (bearer t.access_token)) ∧
    ((refreshSucceeded
        (refreshAccessToken (ensureValidToken s now env.refreshAtEnsure).1
          env.refreshAt401) = false ∨ env.resp2.okStatus = false) →
      (fetchModel s now env).1 = ClientState.mk none none ∧
      (fetchModel s now env).2.1.redirectedToLogin = true ∧
      (fetchModel s now env).2.2 =
        Except.error ClientError.authenticationFailed) ∧
    (∀ body, (fetchModel s now env).2.2 = Except.ok body →
      env.resp2.okStatus = true ∧ body = env.resp2.body) := by
  cases hrt : (ensureValidToken s now env.refreshAtEnsure).1.refreshToken with
  | none =>
    have href : refreshAccessToken (ensureValidToken s now env.refreshAtEnsure).1
        env.refreshAt401 =
        ((ensureValidToken s now env.refreshAtEnsure).1,
         Except.error ClientError.noRefreshToken) := by
      simp [refreshAccessToken, hrt]
    simp [fetchModel, h401, href, refreshSucceeded, clearTokens]
  | some rt =>
    cases hout : env.refreshAt401 with
    | ok t =>
      have href : refreshAccessToken (ensureValidToken s now env.refreshAtEnsure).1
          (RefreshOutcome.ok t) =
          (setTokens t (ensureValidToken s now env.refreshAtEnsure).1,
           Except.ok ()) := by
        simp [refreshAccessToken, hrt]
      by_cases h2 : env.resp2.okStatus
      · simp [fetchModel, h401, href, refreshSucceeded, h2, setTokens,
          clearTokens, hout]
      · simp [fetchModel, h401, href, refreshSucceeded, h2, setTokens,
          clearTokens, hout]
    | notOk =>
      have href : refreshAccessToken (ensureValidToken s now env.refreshAtEnsure).1
          RefreshOutcome.notOk =
          (clearTokens (ensureValidToken s now env.refreshAtEnsure).1,
           Except.error ClientError.tokenRefreshFailed) := by
        simp [refreshAccessToken, hrt]
      simp [fetchModel, h401, href, refreshSucceeded, clearTokens, hout]

/-- Helper: `disconnect` never adds timers; with a referenced timer it
filters exactly that timer out of the queue. -/
theorem disconnect_timers_filter (s : HookState) (tid : Nat)
    (h : s.reconnectTimeoutRef = some tid) :
    (disconnect s).timers = s.timers.filter (fun t => !(t.id == tid)) := by
  unfold disconnect
  rw [h]
  dsimp only
  split
  · rfl
  · split <;> rfl

/-- C2 (amended): When the close event of a live socket is delivered, the
`onclose` handler schedules a reconnect timer to fire exactly 5000 ms later
and stores it in `reconnectTimeoutRef`; a firing timer runs `connect()` only
if `autoConnect` is true; and `disconnect()` removes the reconnect timer that
`reconnectTimeoutRef` references at the moment of the call. (Closing the
socket nevertheless fires a later close event that schedules a fresh timer;
see the counterexample.) -/
theorem C2_reconnect_timer_behavior (s : HookState) (i : Nat)
    (st : ReadyState) (hs : socketState s i = some st)
    (hne : st ≠ ReadyState.closed) :
    (sockClose s i).reconnectTimeoutRef = some s.nextTimerId ∧
    Timer.mk s.nextTimerId (s.now + 5000) ∈ (sockClose s i).timers ∧
    (∀ s2 : HookState, s2.autoConnect = false →
      ∀ tid, (fireTimer s2 tid).sockets = s2.sockets) ∧
    (∀ tid, s.reconnectTimeoutRef = some tid →
      ∀ t ∈ (disconnect s).timers, t.id ≠ tid) := by
  refine ⟨?_, ?_, ?_, ?_⟩
  · unfold sockClose
    rw [hs]
    dsimp only
    rw [if_neg hne]
    rfl
  · unfold sockClose
    rw [hs]
    dsimp only
    rw [if_neg hne]
    simp [setSocketState]
  · intro s2 hauto tid
    unfold fireTimer
    cases hf : s2.timers.find? (fun t => t.id == tid) with
    | none => rfl
    | some t =>
      dsimp only
      split
      · simp [connect, hauto]
      · rfl
  · intro tid h t ht
    rw [disconnect_timers_filter s tid h] at ht
    have := List.of_mem_filter ht
    simpa using this

/-- Witness for C2 at a just-opened socket. -/
theorem C2_reconnect_timer_behavior_witness :
    (sockClose (hookRun (initHook true) [HookEv.connect, HookEv.sockOpen 0])
      0).reconnectTimeoutRef =
      some (hookRun (initHook true)
        [HookEv.connect, HookEv.sockOpen 0]).nextTimerId :=
  (C2_reconnect_timer_behavior
    (hookRun (initHook true) [HookEv.connect, HookEv.sockOpen 0]) 0
    ReadyState.«open» (by decide) (by decide)).1

/-- Counterexample to C2 as stated: after `connect` and a completed
handshake, the user calls `disconnect()`; every later event is an
environment event (the browser delivering the close event of the socket
`disconnect` closed, the clock reaching the timer's fire time, the timer
firing). `disconnect` left one socket; the fired reconnect timer then
created a second one — a further connection was attempted after
`disconnect`, with `autoConnect = true`. -/
theorem C2_counterexample_reconnect_after_disconnect :
    (hookRun (initHook true)
      [HookEv.connect, HookEv.sockOpen 0, HookEv.disconnect,
       HookEv.sockClose 0]).sockets.length = 1 ∧
    (hookRun (initHook true)
      [HookEv.connect, HookEv.sockOpen 0, HookEv.disconnect,
       HookEv.sockClose 0, HookEv.advance 5000,
       HookEv.fireTimer 0]).sockets.length = 2 := by
  decide

/-- C3 (amended): `connect()` returns without creating a socket whenever the
current socket's ready state is OPEN, so repeated calls while connected never
produce a second connection. (Calls while a socket is still CONNECTING do
create an additional socket; see the counterexample.) -/
theorem C3_connect_noop_when_open (s : HookState)
    (h : currentReadyState s = some ReadyState.«open») :
    connect s = s := by
  unfold connect
  rw [if_pos h]

/-- Witness for C3 on a connected hook. -/
theorem C3_connect_noop_when_open_witness :
    connect (hookRun (initHook true) [HookEv.connect, HookEv.sockOpen 0]) =
      hookRun (initHook true) [HookEv.connect, HookEv.sockOpen 0] :=
  C3_connect_noop_when_open
    (hookRun (initHook true) [HookEv.connect, HookEv.sockOpen 0]) (by decide)

/-- Counterexample to C3 as stated: two `connect()` calls while the first
socket is still CONNECTING (its ready state is not OPEN, so the guard does
not return) create two sockets, and after both handshakes complete the hook
instance has two sockets in the OPEN state at the same time. -/
theorem C3_counterexample_two_open_sockets :
    openSockets (hookRun (initHook true)
      [HookEv.connect, HookEv.connect, HookEv.sockOpen 0,
       HookEv.sockOpen 1]) = 2 := by
  decide

/-- Witness for C5: a 401 on a client with no stored tokens. -/
theorem C5_fetch_401_refresh_retry_witness :
    (fetchModel (ClientState.mk none none) 0
      (FetchEnv.mk (Response.mk 401 "unauthorized") RefreshOutcome.notOk
        RefreshOutcome.notOk (Response.mk 200 "body"))).2.1.refreshes401
      = 1 :=
  (C5_fetch_401_refresh_retry (ClientState.mk none none) 0
    (FetchEnv.mk (Response.mk 401 "unauthorized") RefreshOutcome.notOk
      RefreshOutcome.notOk (Response.mk 200 "body")) rfl).1

/-- Witness for C8 on a protected dashboard path. -/
theorem C8_middleware_always_next_witness :
    middleware "/dashboard" = MwResult.next :=
  C8_middleware_always_next "/dashboard"

/-- C4: Each controls/risk API wrapper returns the backend response when the
underlying call resolves and the hard-coded demo payload exactly when it
rejects; being total functions of the call outcome, they never reject. -/
theorem C4_fallback_iff_throw :
    (∀ v, getControlScorecard (Except.ok v) = v) ∧
    (∀ e, getControlScorecard (Except.error e) = generateDemoScorecard) ∧
    (∀ v, getControls (Except.ok v) = v) ∧
    (∀ e, getControls (Except.error e) = generateDemoScorecard.controls) ∧
    (∀ v, getRiskDashboard (Except.ok v) = v) ∧
    (∀ e, getRiskDashboard (Except.error e) = generateDemoRiskData) ∧
    (∀ v, getRisks (Except.ok v) = v) ∧
    (∀ e, getRisks (Except.error e) = generateDemoRiskData.recent_risks) :=
  ⟨fun _ => rfl, fun _ => rfl, fun _ => rfl, fun _ => rfl,
   fun _ => rfl, fun _ => rfl, fun _ => rfl, fun _ => rfl⟩

/-- C7: Every status-like field of the embedded entity records ranges over
its declared closed enum, and cross-entity references are plain (possibly
null) strings with no further structure. -/
theorem C7_entity_enums_closed :
    (∀ p : AuditProject,
      p.status = ProjectStatus.draft ∨ p.status = ProjectStatus.planning ∨
      p.status = ProjectStatus.fieldwork ∨
      p.status = ProjectStatus.reporting ∨
      p.status = ProjectStatus.completed) ∧
    (∀ m : DialogueMessage,
      m.message_type = MessageType.question ∨
      m.message_type = MessageType.answer ∨
      m.message_type = MessageType.clarification ∨
      m.message_type = MessageType.escalation) ∧
    (∀ r : RiskItem,
      r.risk_level = RiskLevel.critical ∨ r.risk_level = RiskLevel.high ∨
      r.risk_level = RiskLevel.medium ∨ r.risk_level = RiskLevel.low) ∧
    (∀ c : ControlScore,
      c.status = ControlStatus.effective ∨
      c.status = ControlStatus.partially_effective ∨
      c.status = ControlStatus.ineffective ∨
      c.status = ControlStatus.not_tested) ∧
    (∀ r : RiskItem,
      r.project_id = none ∨ ∃ sid : String, r.project_id = some sid) ∧
    (∀ c : ControlScore,
      c.project_id = none ∨ ∃ sid : String, c.project_id = some sid) ∧
    (∀ m : DialogueMessage, ∃ tid : String, m.thread_id = tid) := by
  refine ⟨?_, ?_, ?_, ?_, ?_, ?_, ?_⟩
  · intro p; cases p.status <;> simp
  · intro m; cases m.message_type <;> simp
  · intro r; cases r.risk_level <;> simp
  · intro c; cases c.status <;> simp
  · intro r
    cases r.project_id with
    | none => exact Or.inl rfl
    | some sid => exact Or.inr ⟨sid, rfl⟩
  · intro c
    cases c.project_id with
    | none => exact Or.inl rfl
    | some sid => exact Or.inr ⟨sid, rfl⟩
  · intro m; exact ⟨m.thread_id, rfl⟩

/-- Helper: the `activeProjects` filter of `getDashboardStats` agrees with
the predicate "status is neither completed nor draft". -/
theorem active_filter_pred (p : AuditProject) :
    (!(p.status == ProjectStatus.completed) &&
      !(p.status == ProjectStatus.draft)) =
      decide (p.status ≠ ProjectStatus.completed ∧
        p.status ≠ ProjectStatus.draft) := by
  cases p.status <;> rfl

/-- C9: `getDashboardStats` is a total function of the settled outcomes of
its three backend calls (so it never rejects); each rejected component
contributes 0, `activeProjects` counts exactly the fetched projects whose
status is neither completed nor draft, and `riskAlerts` is always 0. -/
theorem C9_dashboard_stats_settled
    (projects : Except ClientError ProjectListResponse)
    (approvals : Except ClientError (List ApprovalQueueItem))
    (decisions : Except ClientError DecisionListResponse) :
    (getDashboardStats projects approvals decisions).riskAlerts = 0 ∧
    (∀ v, projects = Except.ok v →
      (getDashboardStats projects approvals decisions).activeProjects =
        (v.projects.filter (fun p =>
          decide (p.status ≠ ProjectStatus.completed ∧
            p.status ≠ ProjectStatus.draft))).length) ∧
    (∀ e, projects = Except.error e →
      (getDashboardStats projects approvals decisions).activeProjects = 0) ∧
    (∀ v, approvals = Except.ok v →
      (getDashboardStats projects approvals decisions).pendingApprovals =
        v.length) ∧
    (∀ e, approvals = Except.error e →
      (getDashboardStats projects approvals decisions).pendingApprovals
        = 0) ∧
    (∀ v, decisions = Except.ok v →
      (getDashboardStats projects approvals decisions).agentDecisions =
        v.total) ∧
    (∀ e, decisions = Except.error e →
      (getDashboardStats projects approvals decisions).agentDecisions
        = 0) := by
  refine ⟨rfl, ?_, ?_, ?_, ?_, ?_, ?_⟩
  · intro v hv
    subst hv
    show (v.projects.filter _).length = _
    congr 1
    exact List.filter_congr (fun p _ => active_filter_pred p)
  · intro e he; subst he; rfl
  · intro v hv; subst hv; rfl
  · intro e he; subst he; rfl
  · intro v hv; subst hv; rfl
  · intro e he; subst he; rfl

/-- Witness for C9 with all three calls rejected. -/
theorem C9_dashboard_stats_settled_witness :
    (getDashboardStats (Except.error ClientError.authenticationFailed)
      (Except.error ClientError.authenticationFailed)
      (Except.error ClientError.authenticationFailed)).riskAlerts = 0 :=
  (C9_dashboard_stats_settled
    (Except.error ClientError.authenticationFailed)
    (Except.error ClientError.authenticationFailed)
    (Except.error ClientError.authenticationFailed)).1

/-- C10: The demo scorecard is internally consistent: the four status counts
sum to `total_controls`, which is the number of controls; `overall_score` is
the rounded mean score of the tested controls (0 if none); and every
`by_category` entry carries the exact count and rounded mean score of the
controls of its category, every control category being present. -/
theorem C10_demo_scorecard_consistent :
    generateDemoScorecard.effective +
        generateDemoScorecard.partially_effective +
        generateDemoScorecard.ineffective +
        generateDemoScorecard.not_tested =
      generateDemoScorecard.total_controls ∧
    generateDemoScorecard.total_controls =
      generateDemoScorecard.controls.length ∧
    generateDemoScorecard.overall_score =
      (let tested := generateDemoScorecard.controls.filter
          (fun c => !(c.status == ControlStatus.not_tested))
       if tested.length > 0 then
         mathRound (tested.foldl (fun sum c => sum + c.score) 0)
           tested.length
       else 0) ∧
    (∀ e ∈ generateDemoScorecard.by_category,
      e.2.count =
        (generateDemoScorecard.controls.filter
          (fun c => c.category == e.1)).length ∧
      e.2.score =
        mathRound
          ((generateDemoScorecard.controls.filter
            (fun c => c.category == e.1)).foldl
              (fun sum c => sum + c.score) 0)
          (generateDemoScorecard.controls.filter
            (fun c => c.category == e.1)).length) ∧
    (∀ c ∈ generateDemoScorecard.controls,
      ∃ e ∈ generateDemoScorecard.by_category, e.1 = c.category) := by
  decide

end AuditAgent
